import Mathlib

/-!
# Verification of the MT5 backtesting core and its Polymarket analogue

Shallow embedding of the position/account ledger (`BaseStrategy` in
`src/backtesting/MT5/base_strategy.py`), the bar replay loop
(`BacktestEngine.run` in `src/backtesting/MT5/backtest_engine.py`), the
model-driven decision rule (`ONNXBacktestStrategy.on_bar` in
`src/backtesting/MT5/onnx_backtest_strategy.py`) and the drawdown update of
the Polymarket base strategy (`src/polymarket/strategies/base_strategy.py`).

Prices, volumes and balances are embedded as exact rationals (`ℚ`).
Wall-clock fields (`open_time`, `close_time`, produced by `datetime.now()`)
are omitted: no ledger logic reads them.  In `ℚ`, division by zero yields 0
where Python would raise `ZeroDivisionError`; each place this matters is
noted at the definition.
-/

namespace MT5

/-- Order direction, the `'BUY'` / `'SELL'` strings of the source. -/
inductive OrderType where
  | BUY
  | SELL
deriving DecidableEq

/-- Python substring helper: does the second list occur starting at the head
of the first? (`needle` is the first argument.) -/
def prefixAt : List Char → List Char → Bool
  | [], _ => true
  | _ :: _, [] => false
  | a :: as, b :: bs => a == b && prefixAt as bs

/-- Does `needle` occur anywhere inside the list? -/
def containsSub (needle : List Char) : List Char → Bool
  | [] => prefixAt needle []
  | c :: tl => prefixAt needle (c :: tl) || containsSub needle tl

/-- Python's `"XAU" in symbol` substring test. -/
def strContains (haystack needle : String) : Bool :=
  containsSub needle.toList haystack.toList

/-- The open-position record built by `BaseStrategy.open_position`
(`base_strategy.py` lines 138-146); `open_time` omitted (wall clock). -/
structure Position where
  type : OrderType
  volume : ℚ
  open_price : ℚ
  sl : Option ℚ
  tp : Option ℚ
  comment : String

/-- The trade-result record built by `BaseStrategy.close_position`
(`base_strategy.py` lines 171-181); `open_time`/`close_time` omitted. -/
structure Trade where
  type : OrderType
  volume : ℚ
  open_price : ℚ
  close_price : ℚ
  profit : ℚ
  pips : ℚ
  comment : String

/-- The mutable fields of `BaseStrategy.__init__` (`base_strategy.py`
lines 32-55) that the ledger operations read or write. -/
structure LedgerState where
  symbol : String
  initial_balance : ℚ
  current_balance : ℚ
  equity : ℚ
  position : Option Position
  closed_trades : List Trade
  max_drawdown : ℚ
  peak_equity : ℚ
  total_profit : ℚ
  total_loss : ℚ
  winning_trades : ℕ
  losing_trades : ℕ
  max_lot_size : ℚ
  min_lot_size : ℚ

/-- `BaseStrategy.__init__(symbol, timeframe, initial_balance)`:
`max_lot_size = 0.1`, `min_lot_size = 0.01`; the timeframe is never read by
ledger logic and is omitted. -/
def initState (symbol : String) (initial_balance : ℚ) : LedgerState :=
  { symbol := symbol
    initial_balance := initial_balance
    current_balance := initial_balance
    equity := initial_balance
    position := none
    closed_trades := []
    max_drawdown := 0
    peak_equity := initial_balance
    total_profit := 0
    total_loss := 0
    winning_trades := 0
    losing_trades := 0
    max_lot_size := 1/10
    min_lot_size := 1/100 }

/-- `'XAU' in self.symbol or 'GOLD' in self.symbol`
(`base_strategy.py` line 126). -/
def isGoldSymbol (symbol : String) : Bool :=
  strContains symbol "XAU" || strContains symbol "GOLD"

/-- `contract_size` of `open_position`: 100 for gold, 100000 otherwise. -/
def contractSize (symbol : String) : ℚ :=
  if isGoldSymbol symbol then 100 else 100000

/-- `margin_percent` of `open_position`: 0.02 for gold, 0.01 otherwise. -/
def marginPercent (symbol : String) : ℚ :=
  if isGoldSymbol symbol then 2/100 else 1/100

/-- `volume = max(self.min_lot_size, min(volume, self.max_lot_size))`
(`base_strategy.py` line 121). -/
def clampVolume (s : LedgerState) (volume : ℚ) : ℚ :=
  max s.min_lot_size (min volume s.max_lot_size)

/-- `margin_required = volume * contract_size * price * margin_percent`
(`base_strategy.py` line 133), on the clamped volume. -/
def marginRequired (s : LedgerState) (volume price : ℚ) : ℚ :=
  clampVolume s volume * contractSize s.symbol * price * marginPercent s.symbol

/-- `BaseStrategy.open_position` (`base_strategy.py` lines 100-148).
Returns the Python return value paired with the post-state. -/
def openPosition (s : LedgerState) (order_type : OrderType) (volume price : ℚ)
    (sl tp : Option ℚ) (comment : String) : Bool × LedgerState :=
  match s.position with
  | some _ => (false, s)
  | none =>
    if marginRequired s volume price > s.equity * (9/10) then (false, s)
    else
      let pos : Position :=
        { type := order_type
          volume := clampVolume s volume
          open_price := price
          sl := sl
          tp := tp
          comment := comment }
      (true, { s with position := some pos })

/-- `BaseStrategy.close_position` (`base_strategy.py` lines 150-205).
Returns the trade-result record paired with the post-state.  The drawdown
line `(peak_equity - equity) / peak_equity` divides by zero when
`peak_equity = 0` (reachable only from `initial_balance ≤ 0`); there Python
raises while `ℚ` yields 0 — none of the theorems below depend on that case
going one way or the other. -/
def closePosition (s : LedgerState) (close_price : ℚ) : Option Trade × LedgerState :=
  match s.position with
  | none => (none, s)
  | some pos =>
    let pips : ℚ :=
      match pos.type with
      | .BUY => (close_price - pos.open_price) * 10000
      | .SELL => (pos.open_price - close_price) * 10000
    let profit := pips * pos.volume * 10
    let trade_result : Trade :=
      { type := pos.type
        volume := pos.volume
        open_price := pos.open_price
        close_price := close_price
        profit := profit
        pips := pips
        comment := pos.comment }
    let current_balance := s.current_balance + profit
    let equity := current_balance
    let peak_equity := if equity > s.peak_equity then equity else s.peak_equity
    let drawdown := (peak_equity - equity) / peak_equity
    (some trade_result,
      { s with
        current_balance := current_balance
        equity := equity
        winning_trades := if 0 < profit then s.winning_trades + 1 else s.winning_trades
        total_profit := if 0 < profit then s.total_profit + profit else s.total_profit
        losing_trades := if 0 < profit then s.losing_trades else s.losing_trades + 1
        total_loss := if 0 < profit then s.total_loss else s.total_loss + |profit|
        peak_equity := peak_equity
        max_drawdown := if drawdown > s.max_drawdown then drawdown else s.max_drawdown
        closed_trades := s.closed_trades ++ [trade_result]
        position := none })

/-- The stop-loss arm of `check_stop_loss_take_profit` (`base_strategy.py`
lines 223 and 228).  Python tests `self.position.get('sl')` for truthiness
first, so a level of `None` or `0.0` never compares. -/
def slTriggered (pos : Position) (current_price : ℚ) : Bool :=
  match pos.type, pos.sl with
  | .BUY, some sl => decide (sl ≠ 0) && decide (current_price ≤ sl)
  | .SELL, some sl => decide (sl ≠ 0) && decide (current_price ≥ sl)
  | _, none => false

/-- The take-profit arm of `check_stop_loss_take_profit` (`base_strategy.py`
lines 225 and 230), with the same truthiness test on the stored level. -/
def tpTriggered (pos : Position) (current_price : ℚ) : Bool :=
  match pos.type, pos.tp with
  | .BUY, some tp => decide (tp ≠ 0) && decide (current_price ≥ tp)
  | .SELL, some tp => decide (tp ≠ 0) && decide (current_price ≤ tp)
  | _, none => false

/-- `BaseStrategy.check_stop_loss_take_profit` (`base_strategy.py`
lines 207-237): the two `if` statements or-accumulate into `should_close`,
and a single `close_position(current_price)` call runs when it is set. -/
def checkSLTP (s : LedgerState) (current_price : ℚ) : Bool × LedgerState :=
  match s.position with
  | none => (false, s)
  | some pos =>
    let should_close := slTriggered pos current_price || tpTriggered pos current_price
    if should_close then (true, (closePosition s current_price).2)
    else (false, s)

/-- The metrics record returned by `get_performance_metrics`
(`base_strategy.py` lines 255-270); the `parameters` entry (an abstract
method of the subclass) is omitted. -/
structure Metrics where
  initial_balance : ℚ
  final_balance : ℚ
  total_return_pct : ℚ
  total_trades : ℕ
  winning_trades : ℕ
  losing_trades : ℕ
  win_rate_pct : ℚ
  total_profit : ℚ
  total_loss : ℚ
  profit_factor : ℚ
  avg_win : ℚ
  avg_loss : ℚ
  max_drawdown_pct : ℚ

/-- `BaseStrategy.get_performance_metrics` (`base_strategy.py`
lines 239-270).  `total_return` divides by `initial_balance`; as in the
source there is no guard (Python raises at 0, `ℚ` yields 0). -/
def get_performance_metrics (s : LedgerState) : Metrics :=
  let total_trades := s.closed_trades.length
  let win_rate : ℚ :=
    if 0 < total_trades then (s.winning_trades : ℚ) / (total_trades : ℚ) * 100 else 0
  let avg_win : ℚ :=
    if 0 < s.winning_trades then s.total_profit / (s.winning_trades : ℚ) else 0
  let avg_loss : ℚ :=
    if 0 < s.losing_trades then s.total_loss / (s.losing_trades : ℚ) else 0
  let profit_factor : ℚ :=
    if 0 < s.total_loss then s.total_profit / s.total_loss else 0
  let total_return := (s.equity - s.initial_balance) / s.initial_balance * 100
  { initial_balance := s.initial_balance
    final_balance := s.equity
    total_return_pct := total_return
    total_trades := total_trades
    winning_trades := s.winning_trades
    losing_trades := s.losing_trades
    win_rate_pct := win_rate
    total_profit := s.total_profit
    total_loss := s.total_loss
    profit_factor := profit_factor
    avg_win := avg_win
    avg_loss := avg_loss
    max_drawdown_pct := s.max_drawdown * 100 }

/-- One ledger call, for reasoning about arbitrary interleavings of the
three mutating operations. -/
inductive LOp where
  | openOp (order_type : OrderType) (volume price : ℚ) (sl tp : Option ℚ) (comment : String)
  | closeOp (close_price : ℚ)
  | checkOp (current_price : ℚ)

/-- Apply one ledger call, keeping only the post-state. -/
def applyOp (s : LedgerState) : LOp → LedgerState
  | .openOp ot v p sl tp c => (openPosition s ot v p sl tp c).2
  | .closeOp p => (closePosition s p).2
  | .checkOp p => (checkSLTP s p).2

/-- Run a sequence of ledger calls left to right. -/
def runOps (s : LedgerState) (ops : List LOp) : LedgerState :=
  ops.foldl applyOp s

/-- Sum of the `profit` fields of a trade list. -/
def tradesProfit (ts : List Trade) : ℚ :=
  (ts.map Trade.profit).sum

/-- Is the operation a `check_stop_loss_take_profit` call? -/
def isCheckOp : LOp → Bool
  | .checkOp _ => true
  | _ => false

/-- Balance conservation as a state predicate: the running balance is the
starting balance plus all realized profit. -/
def balanceInvariant (s : LedgerState) : Prop :=
  s.current_balance = s.initial_balance + tradesProfit s.closed_trades

/-- A BUY position whose stop (2.0) lies above and whose take-profit (1.0)
lies below the open price 1.5, so that a price of 1.5 satisfies the
stop-loss trigger (`price <= sl`) and the take-profit trigger
(`price >= tp`) simultaneously. -/
def bothHitPosition : Position :=
  { type := .BUY
    volume := 1/10
    open_price := 3/2
    sl := some 2
    tp := some 1
    comment := "" }

/-- A fresh EURUSD ledger holding `bothHitPosition`. -/
def bothHitState : LedgerState :=
  { initState "EURUSD" 10000 with position := some bothHitPosition }

/-- A BUY position whose stop-loss and take-profit are stored as `0.0`. -/
def zeroLevelPosition : Position :=
  { type := .BUY
    volume := 1/10
    open_price := 2
    sl := some 0
    tp := some 0
    comment := "" }

/-- A fresh EURUSD ledger holding `zeroLevelPosition`. -/
def zeroLevelState : LedgerState :=
  { initState "EURUSD" 10000 with position := some zeroLevelPosition }

/-- A concrete open/close interleaving with no stop/take-profit checks. -/
def demoOps : List LOp :=
  [.openOp .BUY (1/10) 1 none none "", .closeOp 2, .closeOp 3]

/-- One OHLCV bar as seen by the replay loop; only `close` is read by the
engine's own ledger logic (`backtest_engine.py` lines 199-220), the other
fields are consumed opaquely by the strategy's `on_bar`. -/
structure Bar where
  close : ℚ

/-- Lines 199-201 of `backtest_engine.py`: if a position is open, run
`check_stop_loss_take_profit(bar_data['close'])`. -/
def slPhase (s : LedgerState) (close : ℚ) : LedgerState :=
  match s.position with
  | some _ => (checkSLTP s close).2
  | none => s

/-- Lines 210-220 of `backtest_engine.py`: mark equity at the bar close —
`balance + unrealized` if a position remains open, else `balance`. -/
def markPhase (s : LedgerState) (close : ℚ) : LedgerState :=
  match s.position with
  | some pos =>
    let unrealized_pnl : ℚ :=
      match pos.type with
      | .BUY => (close - pos.open_price) * pos.volume * 10000 * 10
      | .SELL => (pos.open_price - close) * pos.volume * 10000 * 10
    { s with equity := s.current_balance + unrealized_pnl }
  | none => { s with equity := s.current_balance }

/-- The loop body of `BacktestEngine.run` (`backtest_engine.py`
lines 199-220), transcribed inline in the source's statement order: the
stop/take-profit check, then the strategy's `on_bar` (an arbitrary state
transformer here), then the equity mark.  The per-bar exception handler
(lines 204-208) is not modelled: `onBar` is a total function. -/
def processBar (onBar : LedgerState → Bar → LedgerState) (s : LedgerState)
    (bar : Bar) : LedgerState :=
  let s1 :=
    match s.position with
    | some _ => (checkSLTP s bar.close).2
    | none => s
  let s2 := onBar s1 bar
  match s2.position with
  | some pos =>
    let unrealized_pnl : ℚ :=
      match pos.type with
      | .BUY => (bar.close - pos.open_price) * pos.volume * 10000 * 10
      | .SELL => (pos.open_price - bar.close) * pos.volume * 10000 * 10
    { s2 with equity := s2.current_balance + unrealized_pnl }
  | none => { s2 with equity := s2.current_balance }

/-- The `ValueError` message of `backtest_engine.py` line 185. -/
def noDataMsg (symbol : String) : String :=
  "No data available for " ++ symbol ++ " in the specified date range"

/-- `BacktestEngine.run` (`backtest_engine.py` lines 166-245): the bar
sequence returned by `mt5.copy_rates_range` (an external call) is passed in
as `rates`, `None` modelled as `none`.  Empty or missing data raises before
any bar is processed; otherwise every bar runs through the loop body and a
still-open position is force-closed at the last bar's close. -/
def engineRun (onBar : LedgerState → Bar → LedgerState) (s : LedgerState)
    (rates : Option (List Bar)) : Except String LedgerState :=
  match rates with
  | none => .error (noDataMsg s.symbol)
  | some [] => .error (noDataMsg s.symbol)
  | some (r :: rs) =>
    let sEnd := (r :: rs).foldl (processBar onBar) s
    let last_price := ((r :: rs).getLast (List.cons_ne_nil r rs)).close
    match sEnd.position with
    | some _ => .ok (closePosition sEnd last_price).2
    | none => .ok sEnd

/-- The decision tail of `ONNXBacktestStrategy.on_bar`
(`onnx_backtest_strategy.py` lines 212-262), from a prediction value
already obtained.  Lines 214-223 resolve the percentage/absolute-price
format by magnitude (an invalid absolute price returns early, modelled as
`none`); lines 229-234 derive the confidence; lines 245-262 apply the
confidence gate, the threshold gate and the direction split. -/
def onnxDecision (prediction_threshold min_confidence current_price
    predicted_change_pct : ℚ) : Option OrderType :=
  let pctOpt : Option ℚ :=
    if |predicted_change_pct| < 1 then some predicted_change_pct
    else
      if predicted_change_pct ≤ 0 ∨ predicted_change_pct > 10000 then none
      else some (if 0 < current_price
        then (predicted_change_pct - current_price) / current_price else 0)
  match pctOpt with
  | none => none
  | some price_change_pct =>
    let confidence : ℚ :=
      if |price_change_pct| < 1 then min (|price_change_pct| / (1/100)) 1
      else min (|price_change_pct| / 1) 1
    if confidence < min_confidence then none
    else if |price_change_pct| < prediction_threshold then none
    else if price_change_pct > prediction_threshold then some .BUY
    else if price_change_pct < -prediction_threshold then some .SELL
    else none

/-- `ONNXBacktestStrategy.on_bar` (`onnx_backtest_strategy.py`
lines 186-262) reduced to which `open_position` call it makes, if any.
`nbars` is the buffer length after appending the current bar (line 189);
line 196 returns during warmup, lines 202-204 return when a position is
already open, lines 208-210 return when `predict_price` (the external ONNX
session, passed in as `prediction`) yields nothing. -/
def onnxOnBarAction (lookback nbars : ℕ) (position : Option Position)
    (prediction : Option ℚ)
    (prediction_threshold min_confidence current_price : ℚ) : Option OrderType :=
  if nbars < lookback then none
  else
    match position with
    | some _ => none
    | none =>
      match prediction with
      | none => none
      | some p => onnxDecision prediction_threshold min_confidence current_price p

end MT5

namespace Poly

/-- The drawdown-relevant fields of the Polymarket `BaseStrategy.__init__`
(`src/polymarket/strategies/base_strategy.py` lines 55-70).  The open
positions dictionary enters only through the summed unrealized P&L, which
`update_drawdown` reads via `calculate_equity`; it is passed per call. -/
structure Ledger where
  initial_balance : ℚ
  current_balance : ℚ
  equity : ℚ
  peak_equity : ℚ
  max_drawdown : ℚ

/-- Polymarket `BaseStrategy.__init__`: balance, equity and peak all start
at `initial_balance`, `max_drawdown = 0.0`. -/
def polyInit (initial_balance : ℚ) : Ledger :=
  { initial_balance := initial_balance
    current_balance := initial_balance
    equity := initial_balance
    peak_equity := initial_balance
    max_drawdown := 0 }

/-- `BaseStrategy.calculate_equity` (`base_strategy.py` lines 128-139):
balance plus summed unrealized P&L.  The `np.isfinite` guards are vacuous
over `ℚ`; the summed unrealized P&L of the positions dict is the argument. -/
def calculate_equity (s : Ledger) (unrealized : ℚ) : ℚ :=
  s.current_balance + unrealized

/-- `BaseStrategy.update_drawdown` (`base_strategy.py` lines 141-154):
recompute equity, raise the peak, then either record a larger drawdown
(`peak_equity > 0`) or reset `max_drawdown` to 0 (`peak_equity <= 0`). -/
def update_drawdown (s : Ledger) (unrealized : ℚ) : Ledger :=
  let equity := calculate_equity s unrealized
  let peak_equity := if equity > s.peak_equity then equity else s.peak_equity
  if 0 < peak_equity then
    let drawdown := (peak_equity - equity) / peak_equity
    { s with
      equity := equity
      peak_equity := peak_equity
      max_drawdown := if drawdown > s.max_drawdown then drawdown else s.max_drawdown }
  else
    { s with equity := equity, peak_equity := peak_equity, max_drawdown := 0 }

/-- One observation step of the Polymarket ledger as the engine drives it:
other operations (fills, closes) may have moved `current_balance` to an
arbitrary new value `e.1` since the last mark, and the open positions carry
summed unrealized P&L `e.2`; then `update_drawdown` runs. -/
def polyStep (s : Ledger) (e : ℚ × ℚ) : Ledger :=
  update_drawdown { s with current_balance := e.1 } e.2

/-- Run a sequence of Polymarket drawdown updates left to right. -/
def polyRun (s : Ledger) (steps : List (ℚ × ℚ)) : Ledger :=
  steps.foldl polyStep s

/-- Inductive invariant behind drawdown monotonicity: `max_drawdown` is
non-negative and can be positive only once the peak is positive. -/
def ddInvariant (s : Ledger) : Prop :=
  0 ≤ s.max_drawdown ∧ (0 < s.max_drawdown → 0 < s.peak_equity)

end Poly

/-!
## Theorems
-/

namespace MT5

theorem tradesProfit_append (ts : List Trade) (t : Trade) :
    tradesProfit (ts ++ [t]) = tradesProfit ts + t.profit := by
  simp [tradesProfit]

/-- C1: at most one position is open per ledger: `open_position` fails with
`false` and an unchanged state when the `Option`-typed slot is occupied, and
a successful call can only have started from an empty slot — so along every
interleaving of `open_position`, `close_position` and
`check_stop_loss_take_profit` the slot (a single optional record) never
holds more than one position. -/
theorem single_position_invariant (s : LedgerState) (ot : OrderType)
    (v p : ℚ) (sl tp : Option ℚ) (c : String) :
    (s.position.isSome = true → openPosition s ot v p sl tp c = (false, s)) ∧
    ((openPosition s ot v p sl tp c).1 = true → s.position = none) := by
  constructor
  · intro h
    unfold openPosition
    cases hp : s.position with
    | some q => rfl
    | none => rw [hp] at h ; simp at h
  · intro h
    cases hp : s.position with
    | none => rfl
    | some q =>
      unfold openPosition at h
      rw [hp] at h
      simp at h

/-- Witness for C1 at a concrete occupied ledger. -/
theorem single_position_invariant_witness :
    openPosition bothHitState .BUY 1 1 none none "" = (false, bothHitState) :=
  (single_position_invariant bothHitState .BUY 1 1 none none "").1 rfl

/-- C5: an `open_position` call that fails the margin check
(`margin_required > equity * 0.9` on the clamped volume) returns `false`
and leaves the whole ledger state — balance, equity and position slot —
unchanged. -/
theorem margin_rejection_frame (s : LedgerState) (ot : OrderType) (v p : ℚ)
    (sl tp : Option ℚ) (c : String)
    (hmargin : marginRequired s v p > s.equity * (9/10)) :
    openPosition s ot v p sl tp c = (false, s) := by
  unfold openPosition
  cases hp : s.position with
  | some q => rfl
  | none => rw [if_pos hmargin]

/-- Witness for C5: one standard lot of EURUSD at price 10000 needs
1,000,000 of margin against 9,000 of usable equity. -/
theorem margin_rejection_frame_witness :
    openPosition (initState "EURUSD" 10000) .BUY 1 10000 none none ""
      = (false, initState "EURUSD" 10000) := by
  refine margin_rejection_frame (initState "EURUSD" 10000) .BUY 1 10000 none none "" ?_
  have hclamp : clampVolume (initState "EURUSD" 10000) 1 = 1/10 := by
    show max (1/100 : ℚ) (min 1 (1/10)) = 1/10
    rw [min_eq_right (by norm_num), max_eq_right (by norm_num)]
  have hcs : contractSize "EURUSD" = 100000 := rfl
  have hmp : marginPercent "EURUSD" = 1/100 := rfl
  have hm : marginRequired (initState "EURUSD" 10000) 1 10000 = 1000000 := by
    unfold marginRequired
    rw [hclamp]
    rw [show (initState "EURUSD" 10000).symbol = "EURUSD" from rfl, hcs, hmp]
    norm_num
  rw [hm, show (initState "EURUSD" 10000).equity = 10000 from rfl]
  norm_num

/-- C7: `get_performance_metrics` reports `profit_factor` as
`total_profit / total_loss` when `total_loss > 0` and as the sentinel `0`
whenever `total_loss = 0` — in particular both with zero profit and with
positive profit — as a total function of the state. -/
theorem profit_factor_convention (s : LedgerState) :
    (0 < s.total_loss →
      (get_performance_metrics s).profit_factor = s.total_profit / s.total_loss) ∧
    (s.total_loss = 0 → (get_performance_metrics s).profit_factor = 0) := by
  unfold get_performance_metrics
  constructor
  · intro h
    simp [h]
  · intro h
    simp [h]

/-- Witness for C7 at the fresh ledger (no losses, no profit). -/
theorem profit_factor_convention_witness :
    (get_performance_metrics (initState "EURUSD" 10000)).profit_factor = 0 :=
  (profit_factor_convention (initState "EURUSD" 10000)).2 rfl

/-- C10: a stop or take level stored as `0.0` (or `None`) is falsy in
Python, so the corresponding trigger arm of `check_stop_loss_take_profit`
can never fire, at any price; with both levels unset this way the check is
a no-op. -/
theorem zero_level_never_triggers (pos : Position) (price : ℚ) (s : LedgerState) :
    ((pos.sl = some 0 ∨ pos.sl = none) → slTriggered pos price = false) ∧
    ((pos.tp = some 0 ∨ pos.tp = none) → tpTriggered pos price = false) ∧
    (s.position = some pos → (pos.sl = some 0 ∨ pos.sl = none) →
      (pos.tp = some 0 ∨ pos.tp = none) → checkSLTP s price = (false, s)) := by
  have hsl : (pos.sl = some 0 ∨ pos.sl = none) → slTriggered pos price = false := by
    intro h
    unfold slTriggered
    rcases h with h | h <;> rw [h] <;> cases pos.type <;> simp
  have htp : (pos.tp = some 0 ∨ pos.tp = none) → tpTriggered pos price = false := by
    intro h
    unfold tpTriggered
    rcases h with h | h <;> rw [h] <;> cases pos.type <;> simp
  refine ⟨hsl, htp, ?_⟩
  intro hp h1 h2
  unfold checkSLTP
  rw [hp]
  simp [hsl h1, htp h2]

/-- Witness for C10: with both levels stored as `0.0` the check leaves the
ledger untouched. -/
theorem zero_level_never_triggers_witness :
    checkSLTP zeroLevelState 5 = (false, zeroLevelState) :=
  (zero_level_never_triggers zeroLevelPosition 5 zeroLevelState).2.2 rfl
    (Or.inl rfl) (Or.inl rfl)

theorem openPosition_frame (s : LedgerState) (ot : OrderType) (v p : ℚ)
    (sl tp : Option ℚ) (c : String) :
    ((openPosition s ot v p sl tp c).2).current_balance = s.current_balance ∧
    ((openPosition s ot v p sl tp c).2).closed_trades = s.closed_trades ∧
    ((openPosition s ot v p sl tp c).2).initial_balance = s.initial_balance := by
  unfold openPosition
  cases hp : s.position with
  | some q => exact ⟨rfl, rfl, rfl⟩
  | none => refine ⟨?_, ?_, ?_⟩ <;> (repeat' split) <;> rfl

theorem closePosition_balance (s : LedgerState) (p : ℚ)
    (h : balanceInvariant s) :
    balanceInvariant (closePosition s p).2 ∧
    ((closePosition s p).2).initial_balance = s.initial_balance := by
  unfold closePosition
  cases hp : s.position with
  | none => exact ⟨h, rfl⟩
  | some pos =>
    refine ⟨?_, rfl⟩
    unfold balanceInvariant at h ⊢
    show s.current_balance + _ = s.initial_balance + tradesProfit (s.closed_trades ++ [_])
    rw [tradesProfit_append, h]
    ring

theorem checkSLTP_balance (s : LedgerState) (p : ℚ) (h : balanceInvariant s) :
    balanceInvariant (checkSLTP s p).2 ∧
    ((checkSLTP s p).2).initial_balance = s.initial_balance := by
  unfold checkSLTP
  cases hp : s.position with
  | none => exact ⟨h, rfl⟩
  | some pos =>
    dsimp only
    split
    · exact closePosition_balance s p h
    · exact ⟨h, rfl⟩

theorem applyOp_balance (s : LedgerState) (op : LOp) (h : balanceInvariant s) :
    balanceInvariant (applyOp s op) ∧ (applyOp s op).initial_balance = s.initial_balance := by
  cases op with
  | openOp ot v p sl tp c =>
    have hf := openPosition_frame s ot v p sl tp c
    unfold applyOp
    constructor
    · unfold balanceInvariant at h ⊢
      rw [hf.1, hf.2.1, hf.2.2]
      exact h
    · exact hf.2.2
  | closeOp p => exact closePosition_balance s p h
  | checkOp p => exact checkSLTP_balance s p h

theorem runOps_balance (s : LedgerState) (ops : List LOp) (h : balanceInvariant s) :
    balanceInvariant (runOps s ops) ∧ (runOps s ops).initial_balance = s.initial_balance := by
  induction ops generalizing s with
  | nil => exact ⟨h, rfl⟩
  | cons op rest ih =>
    have h1 := applyOp_balance s op h
    have h2 := ih (applyOp s op) h1.1
    exact ⟨h2.1, h2.2.trans h1.2⟩

/-- C2: balance conservation — starting from a fresh ledger, any sequence of
`open_position` / `close_position` calls (no stop/take-profit checks) ends
with `current_balance` equal to the initial balance plus the summed realized
profit of all closed trades, exactly; and `open_position` never changes
`current_balance`. -/
theorem balance_conservation (symbol : String) (bal : ℚ) (ops : List LOp)
    (hnochk : ∀ op ∈ ops, isCheckOp op = false) :
    (runOps (initState symbol bal) ops).current_balance
      = bal + tradesProfit (runOps (initState symbol bal) ops).closed_trades ∧
    (∀ (s : LedgerState) (ot : OrderType) (v p : ℚ) (sl tp : Option ℚ) (c : String),
      ((openPosition s ot v p sl tp c).2).current_balance = s.current_balance) := by
  constructor
  · have h0 : balanceInvariant (initState symbol bal) := by
      simp [balanceInvariant, initState, tradesProfit]
    have h := runOps_balance (initState symbol bal) ops h0
    have hcb := h.1
    unfold balanceInvariant at hcb
    rw [hcb, h.2]
    rfl
  · intro s ot v p sl tp c
    exact (openPosition_frame s ot v p sl tp c).1

/-- Witness for C2 on a concrete open/close/close sequence. -/
theorem balance_conservation_witness :
    (runOps (initState "EURUSD" 10000) demoOps).current_balance
      = 10000 + tradesProfit (runOps (initState "EURUSD" 10000) demoOps).closed_trades :=
  (balance_conservation "EURUSD" 10000 demoOps (by simp [demoOps, isCheckOp])).1

/-- C3 counterexample: for `bothHitPosition` (BUY, open 1.5, stop 2.0,
take-profit 1.0) the price 1.5 satisfies both trigger conditions; the check
closes once, but the recorded exit price is the raw price 1.5 — not the
configured stop 2.0 or take-profit 1.0 as the claim states. -/
theorem stop_take_exit_price_counterexample :
    slTriggered bothHitPosition (3/2) = true ∧
    tpTriggered bothHitPosition (3/2) = true ∧
    (checkSLTP bothHitState (3/2)).1 = true ∧
    ((checkSLTP bothHitState (3/2)).2).closed_trades.map Trade.close_price = [3/2] ∧
    bothHitPosition.sl = some 2 ∧ bothHitPosition.tp = some 1 ∧
    ¬((3 : ℚ)/2 = 2 ∨ (3 : ℚ)/2 = 1) := by
  refine ⟨?_, ?_, ?_, ?_, rfl, rfl, ?_⟩
  · norm_num [slTriggered, bothHitPosition]
  · norm_num [tpTriggered, bothHitPosition]
  · norm_num [checkSLTP, bothHitState, bothHitPosition, slTriggered, tpTriggered]
  · norm_num [checkSLTP, bothHitState, bothHitPosition, slTriggered, tpTriggered,
      closePosition, initState]
  · norm_num

theorem checkSLTP_eq_close (s : LedgerState) (pos : Position) (price : ℚ)
    (hpos : s.position = some pos)
    (hsc : (slTriggered pos price || tpTriggered pos price) = true) :
    checkSLTP s price = (true, (closePosition s price).2) := by
  unfold checkSLTP
  rw [hpos]
  dsimp only
  rw [if_pos hsc]

theorem closePosition_state (s : LedgerState) (pos : Position) (price : ℚ)
    (hpos : s.position = some pos) :
    ((closePosition s price).2).position = none ∧
    ∃ t : Trade, ((closePosition s price).2).closed_trades = s.closed_trades ++ [t] ∧
      t.close_price = price := by
  unfold closePosition
  rw [hpos]
  dsimp only
  exact ⟨rfl, _, rfl, rfl⟩

/-- C3 (amended): when a position's stop-loss or take-profit condition holds
at the checked price, `check_stop_loss_take_profit` closes exactly once
(one trade appended, slot emptied) and the recorded exit price is the raw
price passed to the check — not the configured stop/take level. -/
theorem stop_take_single_close_raw_price (s : LedgerState) (pos : Position)
    (price : ℚ) (hpos : s.position = some pos)
    (htrig : slTriggered pos price = true ∨ tpTriggered pos price = true) :
    (checkSLTP s price).1 = true ∧
    ((checkSLTP s price).2).position = none ∧
    ∃ t : Trade, ((checkSLTP s price).2).closed_trades = s.closed_trades ++ [t] ∧
      t.close_price = price := by
  have hsc : (slTriggered pos price || tpTriggered pos price) = true := by
    rcases htrig with h | h <;> simp [h]
  have hck := checkSLTP_eq_close s pos price hpos hsc
  have hst := closePosition_state s pos price hpos
  rw [hck]
  exact ⟨rfl, hst.1, hst.2⟩

/-- Witness for C3 at the pathological both-triggers position. -/
theorem stop_take_single_close_raw_price_witness :
    (checkSLTP bothHitState (3/2)).1 = true ∧
    ((checkSLTP bothHitState (3/2)).2).position = none ∧
    ∃ t : Trade,
      ((checkSLTP bothHitState (3/2)).2).closed_trades
        = bothHitState.closed_trades ++ [t] ∧ t.close_price = 3/2 :=
  stop_take_single_close_raw_price bothHitState bothHitPosition (3/2) rfl
    (Or.inl (by norm_num [slTriggered, bothHitPosition]))

/-- C4: within one bar of the replay loop, the loop body is exactly the
stop/take-profit phase, then the strategy's `on_bar`, then the equity mark
at the bar close — and the strategy never sees a position whose stop/take
condition held at this bar's close, because the check phase has already
emptied the slot. -/
theorem bar_loop_ordering (f : LedgerState → Bar → LedgerState)
    (s : LedgerState) (bar : Bar) :
    processBar f s bar = markPhase (f (slPhase s bar.close) bar) bar.close ∧
    (∀ pos : Position, s.position = some pos →
      (slTriggered pos bar.close || tpTriggered pos bar.close) = true →
      (slPhase s bar.close).position = none) := by
  constructor
  · rfl
  · intro pos hpos htrig
    unfold slPhase
    rw [hpos]
    rw [checkSLTP_eq_close s pos bar.close hpos htrig]
    exact (closePosition_state s pos bar.close hpos).1

/-- Witness for C4: the stopped-out position is invisible to `on_bar`. -/
theorem bar_loop_ordering_witness :
    (slPhase bothHitState (3/2)).position = none :=
  (bar_loop_ordering (fun st _ => st) bothHitState ⟨3/2⟩).2 bothHitPosition rfl
    (by norm_num [slTriggered, tpTriggered, bothHitPosition])

/-- C9: a missing (`None`) or empty bar sequence makes the engine fail with
the distinguishable no-data error: the result is that error, never a
completed run, and no bar is processed — the outcome does not depend on the
strategy at all. -/
theorem zero_bar_no_data (f : LedgerState → Bar → LedgerState)
    (s : LedgerState) (rates : Option (List Bar))
    (h : rates = none ∨ rates = some []) :
    engineRun f s rates = .error (noDataMsg s.symbol) ∧
    (∀ s2 : LedgerState, engineRun f s rates ≠ .ok s2) ∧
    (∀ g : LedgerState → Bar → LedgerState, engineRun f s rates = engineRun g s rates) := by
  have he : engineRun f s rates = .error (noDataMsg s.symbol) := by
    rcases h with h | h <;> rw [h] <;> rfl
  refine ⟨he, ?_, ?_⟩
  · intro s2 hcontra
    rw [he] at hcontra
    cases hcontra
  · intro g
    rcases h with h | h <;> rw [h] <;> rfl

/-- Witness for C9 at a missing bar sequence. -/
theorem zero_bar_no_data_witness :
    engineRun (fun st _ => st) (initState "EURUSD" 10000) none
      = .error (noDataMsg "EURUSD") :=
  (zero_bar_no_data (fun st _ => st) (initState "EURUSD" 10000) none (Or.inl rfl)).1

end MT5

namespace MT5

theorem closePosition_drawdown (s : LedgerState) (p : ℚ) :
    s.max_drawdown ≤ ((closePosition s p).2).max_drawdown := by
  unfold closePosition
  cases hp : s.position with
  | none => exact le_refl _
  | some pos =>
    dsimp only
    split <;> split <;> first
    | (rename_i h ; exact le_of_lt h)
    | exact le_refl _

theorem applyOp_drawdown (s : LedgerState) (op : LOp) :
    s.max_drawdown ≤ (applyOp s op).max_drawdown := by
  cases op with
  | openOp ot v p sl tp c =>
    unfold applyOp openPosition
    cases hp : s.position with
    | some q => exact le_refl _
    | none =>
      dsimp only
      split <;> exact le_refl _
  | closeOp p => exact closePosition_drawdown s p
  | checkOp p =>
    unfold applyOp checkSLTP
    cases hp : s.position with
    | none => exact le_refl _
    | some pos =>
      dsimp only
      split
      · exact closePosition_drawdown s p
      · exact le_refl _

theorem markPhase_drawdown (s : LedgerState) (c : ℚ) :
    (markPhase s c).max_drawdown = s.max_drawdown := by
  unfold markPhase
  cases hp : s.position with
  | none => rfl
  | some pos => rfl

end MT5

namespace Poly

theorem update_drawdown_mono (s : Ledger) (u : ℚ) (h : ddInvariant s) :
    ddInvariant (update_drawdown s u) ∧
    s.max_drawdown ≤ (update_drawdown s u).max_drawdown := by
  unfold update_drawdown calculate_equity
  dsimp only
  set e := s.current_balance + u with he
  set pk := if e > s.peak_equity then e else s.peak_equity with hpk
  have hpk1 : s.peak_equity ≤ pk := by
    rw [hpk]
    split
    · rename_i hgt
      exact le_of_lt hgt
    · exact le_refl _
  have hpk2 : e ≤ pk := by
    rw [hpk]
    split
    · exact le_refl _
    · rename_i hle
      exact le_of_not_lt hle
  split
  · rename_i hpos
    refine ⟨⟨?_, fun _ => hpos⟩, ?_⟩
    · dsimp only
      split
      · rename_i hgt
        exact div_nonneg (by linarith) (le_of_lt hpos)
      · exact h.1
    · dsimp only
      split
      · rename_i hgt
        exact le_of_lt hgt
      · exact le_refl _
  · rename_i hpos
    have hpk0 : pk ≤ 0 := le_of_not_lt hpos
    have hmd0 : s.max_drawdown = 0 := by
      by_contra hne
      have hpos2 : 0 < s.max_drawdown := lt_of_le_of_ne h.1 (Ne.symm hne)
      have := h.2 hpos2
      linarith
    refine ⟨⟨le_refl 0, fun h0 => absurd h0 (lt_irrefl 0)⟩, ?_⟩
    rw [hmd0]

theorem polyStep_mono (s : Ledger) (e : ℚ × ℚ) (h : ddInvariant s) :
    ddInvariant (polyStep s e) ∧ s.max_drawdown ≤ (polyStep s e).max_drawdown := by
  unfold polyStep
  exact update_drawdown_mono { s with current_balance := e.1 } e.2 h

theorem polyRun_invariant (s : Ledger) (steps : List (ℚ × ℚ))
    (h : ddInvariant s) : ddInvariant (polyRun s steps) := by
  induction steps generalizing s with
  | nil => exact h
  | cons e rest ih => exact ih (polyStep s e) (polyStep_mono s e h).1

end Poly

/-- C6: `max_drawdown` never decreases.  For the MT5 ledger every mutating
call (`open_position`, `close_position`, `check_stop_loss_take_profit`)
and every engine equity mark leaves `max_drawdown` at least as large as
before; for the Polymarket analogue, along any run of `update_drawdown`
observations from a freshly initialized ledger (with arbitrary balance
changes in between), one more observation never lowers `max_drawdown` —
even through the `peak_equity <= 0` reset branch, which is reachable only
while `max_drawdown` is still 0. -/
theorem drawdown_monotone :
    (∀ (s : MT5.LedgerState) (op : MT5.LOp),
      s.max_drawdown ≤ (MT5.applyOp s op).max_drawdown) ∧
    (∀ (s : MT5.LedgerState) (c : ℚ),
      (MT5.markPhase s c).max_drawdown = s.max_drawdown) ∧
    (∀ (b : ℚ) (steps : List (ℚ × ℚ)) (e : ℚ × ℚ),
      (Poly.polyRun (Poly.polyInit b) steps).max_drawdown
        ≤ (Poly.polyStep (Poly.polyRun (Poly.polyInit b) steps) e).max_drawdown) := by
  refine ⟨MT5.applyOp_drawdown, MT5.markPhase_drawdown, ?_⟩
  intro b steps e
  have hinv : Poly.ddInvariant (Poly.polyInit b) :=
    ⟨le_refl 0, fun h0 => absurd h0 (lt_irrefl 0)⟩
  exact (Poly.polyStep_mono _ e (Poly.polyRun_invariant _ steps hinv)).2

namespace MT5

theorem onnxDecision_gate (thr minConf price p : ℚ) (hp : |p| < 1) :
    onnxDecision thr minConf price p
      = (if min (|p| / (1/100)) 1 < minConf then none
         else if |p| < thr then none
         else if p > thr then some OrderType.BUY
         else if p < -thr then some OrderType.SELL
         else none) := by
  unfold onnxDecision
  dsimp only
  rw [if_pos hp]
  dsimp only
  rw [if_pos hp]

/-- C8: the dual gate of the model-driven strategy — with an empty position
slot, a full lookback buffer and a prediction `p` with `|p| < 1`, a BUY is
requested exactly when `p` exceeds `prediction_threshold` with
`confidence = min(|p|/0.01, 1)` at least `min_confidence`; a SELL exactly
when `p` is below `-prediction_threshold` with sufficient confidence; in
every other case (including `|p|` equal to the threshold) no position is
opened. -/
theorem onnx_dual_gate (lookback nbars : ℕ) (thr minConf price p : ℚ)
    (hfull : lookback ≤ nbars) (hp : |p| < 1) (hthr : 0 ≤ thr) :
    (onnxOnBarAction lookback nbars none (some p) thr minConf price = some OrderType.BUY
      ↔ (thr < p ∧ minConf ≤ min (|p| / (1/100)) 1)) ∧
    (onnxOnBarAction lookback nbars none (some p) thr minConf price = some OrderType.SELL
      ↔ (p < -thr ∧ minConf ≤ min (|p| / (1/100)) 1)) ∧
    (¬(thr < p ∧ minConf ≤ min (|p| / (1/100)) 1) →
      ¬(p < -thr ∧ minConf ≤ min (|p| / (1/100)) 1) →
      onnxOnBarAction lookback nbars none (some p) thr minConf price = none) := by
  have hnl : ¬ nbars < lookback := not_lt.mpr hfull
  have hred : onnxOnBarAction lookback nbars none (some p) thr minConf price
      = onnxDecision thr minConf price p := by
    unfold onnxOnBarAction
    rw [if_neg hnl]
  rw [hred, onnxDecision_gate thr minConf price p hp]
  have habs1 : p ≤ |p| := le_abs_self p
  have habs2 : -p ≤ |p| := by
    rw [← abs_neg]
    exact le_abs_self (-p)
  by_cases hc : min (|p| / (1/100)) 1 < minConf
  · rw [if_pos hc]
    refine ⟨⟨(fun h => nomatch h), ?_⟩, ⟨(fun h => nomatch h), ?_⟩, fun _ _ => rfl⟩
    · rintro ⟨h1, h2⟩
      exact absurd hc (not_lt.mpr h2)
    · rintro ⟨h1, h2⟩
      exact absurd hc (not_lt.mpr h2)
  · rw [if_neg hc]
    have hcge : minConf ≤ min (|p| / (1/100)) 1 := not_lt.mp hc
    by_cases hat : |p| < thr
    · rw [if_pos hat]
      refine ⟨⟨(fun h => nomatch h), ?_⟩, ⟨(fun h => nomatch h), ?_⟩, fun _ _ => rfl⟩
      · rintro ⟨h1, h2⟩
        exact absurd hat (not_lt.mpr (le_trans (le_of_lt h1) habs1))
      · rintro ⟨h1, h2⟩
        have : thr < -p := by linarith
        exact absurd hat (not_lt.mpr (le_trans (le_of_lt this) habs2))
    · rw [if_neg hat]
      by_cases hbuy : p > thr
      · rw [if_pos hbuy]
        refine ⟨⟨fun _ => ⟨hbuy, hcge⟩, fun _ => rfl⟩, ⟨(fun h => nomatch h), ?_⟩,
          fun hnb _ => absurd ⟨hbuy, hcge⟩ hnb⟩
        rintro ⟨h1, h2⟩
        linarith
      · rw [if_neg hbuy]
        by_cases hsell : p < -thr
        · rw [if_pos hsell]
          refine ⟨⟨(fun h => nomatch h), ?_⟩, ⟨fun _ => ⟨hsell, hcge⟩, fun _ => rfl⟩,
            fun _ hns => absurd ⟨hsell, hcge⟩ hns⟩
          rintro ⟨h1, h2⟩
          exact absurd h1 hbuy
        · rw [if_neg hsell]
          refine ⟨⟨(fun h => nomatch h), ?_⟩, ⟨(fun h => nomatch h), ?_⟩, fun _ _ => rfl⟩
          · rintro ⟨h1, h2⟩
            exact absurd h1 hbuy
          · rintro ⟨h1, h2⟩
            exact absurd h1 hsell

/-- Witness for C8: a predicted +0.5% move against a 0.1% threshold and
zero minimum confidence requests a BUY. -/
theorem onnx_dual_gate_witness :
    onnxOnBarAction 60 60 none (some (1/200)) (1/1000) 0 100 = some OrderType.BUY := by
  refine ((onnx_dual_gate 60 60 (1/1000) 0 100 (1/200) (le_refl 60) ?_ ?_).1).mpr
    ⟨?_, ?_⟩
  · rw [abs_lt]
    constructor <;> norm_num
  · norm_num
  · norm_num
  · exact le_min (by positivity) (by norm_num)

end MT5
